import Mathlib

/-!
Verification of the react-native-pan-pinch gesture component.

The repository contains three revisions of the same component:
  * src/unnamed/part_001 — early revision with an absolute-distance power-law
    bounce that takes the combining operation as a parameter;
  * src/unnamed/part_002 — revision with the relative-overshoot fourth-root
    bounce and a pinch-END-latched boundary adjustment;
  * src/src/PanPinch.js — latest revision, whose active-gesture branch uses the
    hard clamp (the relative-overshoot bounce is commented out) and whose
    boundary adjustment is recomputed on every evaluation.

JavaScript numbers are modelled by ℚ wherever the code only adds, multiplies,
divides by constants and compares (so every definition stays executable), and
by ℝ where the code raises to the fractional power 0.25 or 1/1.3.  Division
whose denominator can be zero (which in JS floats produces a non-finite
Infinity/NaN that then propagates) is additionally modelled by an
Except-valued variant that signals exactly when such a division is evaluated.
-/

/-- Gesture-recognizer states of react-native-gesture-handler.  The component
only discriminates on END; every other state takes the other branch of the
conditional. -/
inductive GestureState where
  | UNDETERMINED
  | FAILED
  | BEGAN
  | CANCELLED
  | ACTIVE
  | END
deriving DecidableEq, Repr

/-- Source (all three revisions, identical):
function cap(minValue, maxValue, value) \x7b
    return min(maxValue, max(minValue, value));
\x7d
Generic over the ordered carrier so the same definition serves the ℚ-valued
pipeline and the ℝ-valued bounce pipeline. -/
def cap {α : Type} [LinearOrder α] (minValue maxValue value : α) : α :=
  min maxValue (max minValue value)

/-- Source (src/unnamed/part_002, relative-overshoot revision):
function bounce(minValue, maxValue, value) \x7b
    const boundaryDiff = sub(maxValue, minValue);
    const exceedsHighRelatively = divide(sub(value, minValue), boundaryDiff);
    const exceedsLowRelatively = divide(sub(maxValue, value), boundaryDiff);
    const exceedsHigh = sub(value, maxValue);
    const exceedsLow = sub(minValue, value);
    return cond(greaterThan(exceedsHigh, 0),
        add(multiply(boundaryDiff, pow(exceedsHighRelatively, 0.25)), minValue),
        cond(greaterThan(exceedsLow, 0),
            sub(maxValue, multiply(boundaryDiff, pow(exceedsLowRelatively, 0.25))),
            value));
\x7d
The reanimated cond node evaluates only the taken branch, so the divisions are
modelled inside the branch that uses them.  Division here is ℝ-division (total,
x / 0 = 0); bounceChecked below marks the division-by-zero evaluations. -/
noncomputable def bounce (minValue maxValue value : ℝ) : ℝ :=
  let boundaryDiff := maxValue - minValue
  let exceedsHighRelatively := (value - minValue) / boundaryDiff
  let exceedsLowRelatively := (maxValue - value) / boundaryDiff
  let exceedsHigh := value - maxValue
  let exceedsLow := minValue - value
  if 0 < exceedsHigh then
    boundaryDiff * exceedsHighRelatively ^ (0.25 : ℝ) + minValue
  else if 0 < exceedsLow then
    maxValue - boundaryDiff * exceedsLowRelatively ^ (0.25 : ℝ)
  else value

/-- The combining operation passed through the pipeline: add for the pan axes,
multiply for zoom.  part_001 compares the operation against multiply by
identity, which this inductive reflects. -/
inductive AOp where
  | add
  | mul
deriving DecidableEq, Repr

/-- Application of an AOp to two numbers. -/
def AOp.apply : AOp → ℝ → ℝ → ℝ
  | .add, a, b => a + b
  | .mul, a, b => a * b

/-- Source (src/unnamed/part_001, absolute-distance revision):
function bounce(minValue, maxValue, value, operation) \x7b
    if (operation === multiply) return value;
    const exceedsHigh = sub(value, maxValue);
    const exceedsLow = sub(minValue, value);
    return cond(greaterThan(exceedsHigh, 0),
        operation(maxValue, pow(exceedsHigh, divide(1, 1.3))),
        cond(greaterThan(exceedsLow, 0),
            operation(minValue, multiply(pow(exceedsLow, divide(1, 1.3)), -1)),
            value));
\x7d -/
noncomputable def bounce13 (minValue maxValue value : ℝ) (operation : AOp) : ℝ :=
  if operation = AOp.mul then value
  else
    let exceedsHigh := value - maxValue
    let exceedsLow := minValue - value
    if 0 < exceedsHigh then
      operation.apply maxValue (exceedsHigh ^ ((1 : ℝ) / 1.3))
    else if 0 < exceedsLow then
      operation.apply minValue (exceedsLow ^ ((1 : ℝ) / 1.3) * (-1))
    else value

/-- Division as evaluated by the reanimated divide node on JS floats: dividing
by zero produces a non-finite value (Infinity, or NaN when it is later
multiplied by 0).  The error value marks exactly the evaluations in which that
happens; the ok branch is ordinary division. -/
noncomputable def jsDiv (a b : ℝ) : Except String ℝ :=
  if b = 0 then Except.error "division by zero" else Except.ok (a / b)

/-- bounce from src/unnamed/part_002 with the division-by-zero evaluations made
observable: identical branch structure (the cond node only evaluates the taken
branch), but the divide node reports when its denominator is zero, which on JS
floats starts the non-finite Infinity/NaN propagation. -/
noncomputable def bounceChecked (minValue maxValue value : ℝ) : Except String ℝ :=
  let boundaryDiff := maxValue - minValue
  if 0 < value - maxValue then
    match jsDiv (value - minValue) boundaryDiff with
    | Except.error e => Except.error e
    | Except.ok exceedsHighRelatively =>
        Except.ok (boundaryDiff * exceedsHighRelatively ^ (0.25 : ℝ) + minValue)
  else if 0 < minValue - value then
    match jsDiv (maxValue - value) boundaryDiff with
    | Except.error e => Except.error e
    | Except.ok exceedsLowRelatively =>
        Except.ok (maxValue - boundaryDiff * exceedsLowRelatively ^ (0.25 : ℝ))
  else Except.ok value

/-- C3: inside the boundary pair, both bounce revisions are the identity. -/
theorem bounce_inside_identity (minValue maxValue value : ℝ) (op : AOp)
    (_hmm : minValue < maxValue) (h1 : minValue ≤ value) (h2 : value ≤ maxValue) :
    bounce minValue maxValue value = value ∧
    bounce13 minValue maxValue value op = value := by
  constructor
  · simp only [bounce]
    rw [if_neg (by simp; linarith), if_neg (by simp; linarith)]
  · cases op with
    | mul => simp [bounce13]
    | add =>
      simp only [bounce13]
      rw [if_neg (by decide)]
      rw [if_neg (by simp; linarith), if_neg (by simp; linarith)]

/-- Witness for C3 at min = 0, max = 100, value = 50, op = add. -/
theorem bounce_inside_identity_witness :
    bounce 0 100 50 = 50 ∧ bounce13 0 100 50 AOp.add = 50 :=
  bounce_inside_identity 0 100 50 AOp.add (by norm_num) (by norm_num) (by norm_num)

/-- C4: above the upper bound, bounce computes the relative-overshoot
fourth-root easing min + (max − min) · ((value − min)/(max − min))^0.25, which
lies strictly between max and value. -/
theorem bounce_overshoot_high (minValue maxValue value : ℝ)
    (hmm : minValue < maxValue) (hv : maxValue < value) :
    bounce minValue maxValue value =
      minValue + (maxValue - minValue) *
        ((value - minValue) / (maxValue - minValue)) ^ (0.25 : ℝ) ∧
    maxValue < bounce minValue maxValue value ∧
    bounce minValue maxValue value < value := by
  have hd : 0 < maxValue - minValue := by linarith
  have hr : 1 < (value - minValue) / (maxValue - minValue) := by
    rw [lt_div_iff₀ hd]; linarith
  have hpow1 : 1 < ((value - minValue) / (maxValue - minValue)) ^ (0.25 : ℝ) := by
    rw [Real.one_lt_rpow_iff_of_pos (by linarith)]
    exact Or.inl ⟨hr, by norm_num⟩
  have hpowr : ((value - minValue) / (maxValue - minValue)) ^ (0.25 : ℝ) <
      (value - minValue) / (maxValue - minValue) := by
    have h := Real.rpow_lt_rpow_of_exponent_lt hr (show (0.25 : ℝ) < 1 by norm_num)
    rwa [Real.rpow_one] at h
  have hbeq : bounce minValue maxValue value =
      (maxValue - minValue) * ((value - minValue) / (maxValue - minValue)) ^ (0.25 : ℝ)
        + minValue := by
    simp only [bounce]
    rw [if_pos (by simp; linarith)]
  refine ⟨?_, ?_, ?_⟩
  · rw [hbeq]; ring
  · rw [hbeq]
    have h4 : (maxValue - minValue) * 1 <
        (maxValue - minValue) * ((value - minValue) / (maxValue - minValue)) ^ (0.25 : ℝ) :=
      (mul_lt_mul_left hd).mpr hpow1
    linarith [h4]
  · rw [hbeq]
    have h2 : (maxValue - minValue) * ((value - minValue) / (maxValue - minValue)) ^ (0.25 : ℝ) <
        (maxValue - minValue) * ((value - minValue) / (maxValue - minValue)) :=
      (mul_lt_mul_left hd).mpr hpowr
    have h3 : (maxValue - minValue) * ((value - minValue) / (maxValue - minValue)) =
        value - minValue := by
      field_simp
    linarith [h2, h3]

/-- Witness for C4 at min = 0, max = 100, value = 150. -/
theorem bounce_overshoot_high_witness :
    bounce 0 100 150 =
      0 + (100 - 0) * ((150 - 0) / (100 - 0)) ^ (0.25 : ℝ) ∧
    (100 : ℝ) < bounce 0 100 150 ∧ bounce 0 100 150 < 150 :=
  bounce_overshoot_high 0 100 150 (by norm_num) (by norm_num)

/-- C5: with a zero-width boundary pair and a value outside it, the code does
divide by zero — there is no defensive guard, and on JS floats the division
yields Infinity whose product with the zero span is NaN, a non-finite value. -/
theorem bounce_zero_span_divides_by_zero :
    bounceChecked 0 0 1 = Except.error "division by zero" ∧
    bounceChecked 5 5 3 = Except.error "division by zero" := by
  constructor
  · norm_num [bounceChecked, jsDiv]
  · norm_num [bounceChecked, jsDiv]

/-- Result of one evaluation of the updateTranslation node: the value held by
previousTranslation after the evaluation, the value held by currentTranslation
after the evaluation, and the value the node returns to the render tree. -/
structure UpdateResult (α : Type) where
  prev : α
  cur : α
  out : α
deriving DecidableEq, Repr

/-- Source (src/unnamed/part_002; part_001 is identical except for the bounce
it calls):
function updateTranslation(previousTranslation, currentTranslation,
    gestureState, boundaries = [-1, 1], operation = add, defaultValue = 0) \x7b
    return cond(eq(gestureState, State.END),
        [set(previousTranslation,
             cap(boundaries[0], boundaries[1],
                 operation(previousTranslation, currentTranslation))),
         set(currentTranslation, defaultValue),
         previousTranslation],
        bounce(boundaries[0], boundaries[1],
               operation(previousTranslation, currentTranslation), operation));
\x7d
The block in the END branch returns previousTranslation after the set, i.e. the
newly committed value.  bounce is declared with three parameters, so the fourth
argument passed at the call site is ignored. -/
noncomputable def updateTranslation (previousTranslation currentTranslation : ℝ)
    (gestureState : GestureState) (boundaries : ℝ × ℝ)
    (operation : ℝ → ℝ → ℝ) (defaultValue : ℝ) : UpdateResult ℝ :=
  if gestureState = GestureState.END then
    let committed := cap boundaries.1 boundaries.2
      (operation previousTranslation currentTranslation)
    ⟨committed, defaultValue, committed⟩
  else
    ⟨previousTranslation, currentTranslation,
      bounce boundaries.1 boundaries.2
        (operation previousTranslation currentTranslation)⟩

/-- Source (src/src/PanPinch.js): same updateTranslation, but its began/active
branch is the hard clamp — the bounce call is replaced with
cap(boundaries[0], boundaries[1], operation(previousTranslation,
currentTranslation), operation), cap being declared with three parameters so
the fourth argument is ignored. -/
def updateTranslationCap (previousTranslation currentTranslation : ℚ)
    (gestureState : GestureState) (boundaries : ℚ × ℚ)
    (operation : ℚ → ℚ → ℚ) (defaultValue : ℚ) : UpdateResult ℚ :=
  if gestureState = GestureState.END then
    let committed := cap boundaries.1 boundaries.2
      (operation previousTranslation currentTranslation)
    ⟨committed, defaultValue, committed⟩
  else
    ⟨previousTranslation, currentTranslation,
      cap boundaries.1 boundaries.2
        (operation previousTranslation currentTranslation)⟩

/-- C1: on the END state, for the pan instantiation (addition, neutral 0) and
the zoom instantiation (multiplication, neutral 1), in both the part_002 and
the PanPinch.js revision, updateTranslation commits
previous := cap(min, max, op(previous, current)), resets current to the
neutral value, and exposes exactly the newly committed previous. -/
theorem updateTranslation_end_commits (prev cur b0 b1 : ℝ) (qp qc q0 q1 : ℚ) :
    updateTranslation prev cur GestureState.END (b0, b1) (· + ·) 0 =
      ⟨cap b0 b1 (prev + cur), 0, cap b0 b1 (prev + cur)⟩ ∧
    updateTranslation prev cur GestureState.END (b0, b1) (· * ·) 1 =
      ⟨cap b0 b1 (prev * cur), 1, cap b0 b1 (prev * cur)⟩ ∧
    updateTranslationCap qp qc GestureState.END (q0, q1) (· + ·) 0 =
      ⟨cap q0 q1 (qp + qc), 0, cap q0 q1 (qp + qc)⟩ ∧
    updateTranslationCap qp qc GestureState.END (q0, q1) (· * ·) 1 =
      ⟨cap q0 q1 (qp * qc), 1, cap q0 q1 (qp * qc)⟩ :=
  ⟨rfl, rfl, rfl, rfl⟩

/-- C10: in the PanPinch.js revision the exposed value lies inside an ordered
boundary pair in every gesture state — both the END branch and the
began/active branch return a cap, so no overshoot is ever exposed. -/
theorem updateTranslationCap_out_bounded (prev cur b0 b1 defaultValue : ℚ)
    (op : ℚ → ℚ → ℚ) (st : GestureState) (h : b0 ≤ b1) :
    b0 ≤ (updateTranslationCap prev cur st (b0, b1) op defaultValue).out ∧
    (updateTranslationCap prev cur st (b0, b1) op defaultValue).out ≤ b1 := by
  unfold updateTranslationCap
  by_cases hst : st = GestureState.END
  · rw [if_pos hst]
    exact ⟨le_min h (le_max_left _ _), min_le_left _ _⟩
  · rw [if_neg hst]
    exact ⟨le_min h (le_max_left _ _), min_le_left _ _⟩

/-- Witness for C10 during an active gesture that overshoots: previous 80 plus
delta 50 against [0, 100]. -/
theorem updateTranslationCap_out_bounded_witness :
    (0 : ℚ) ≤ (updateTranslationCap 80 50 GestureState.ACTIVE (0, 100) (· + ·) 0).out ∧
    (updateTranslationCap 80 50 GestureState.ACTIVE (0, 100) (· + ·) 0).out ≤ 100 :=
  updateTranslationCap_out_bounded 80 50 0 100 0 (· + ·) GestureState.ACTIVE (by norm_num)

/-- One reported gesture frame: the recognizer state and the translation the
event handler writes into currentTransforms for that frame. -/
structure Frame where
  state : GestureState
  delta : ℝ

/-- Mutable state of one pan axis: the committed previousTransforms entry and
the in-flight currentTransforms entry. -/
structure AxisState where
  prev : ℝ
  cur : ℝ

/-- One animation-frame step of a pan axis in the part_002 pipeline: the pan
event handler writes the reported translation into currentTransforms, then the
graph evaluates updateTranslation with the add operation and default 0. -/
noncomputable def panStep (boundaries : ℝ × ℝ) (s : AxisState) (f : Frame) : AxisState :=
  let r := updateTranslation s.prev f.delta f.state boundaries (· + ·) 0
  ⟨r.prev, r.cur⟩

/-- Folding a whole gesture-frame sequence from an initial axis state. -/
noncomputable def runFrames (boundaries : ℝ × ℝ) (s : AxisState) (fs : List Frame) :
    AxisState :=
  fs.foldl (panStep boundaries) s

/-- C2: every END transition commits a value inside the boundary pair;
non-END frames never change the committed value, so bounce overshoot shown
during an active gesture is never committed; and the example sequence — pan 50
committed, then pan 70 — against [0, 100] commits 100, not 120. -/
theorem end_commit_clamped (b0 b1 : ℝ) (h : b0 ≤ b1) :
    (∀ (s : AxisState) (d : ℝ),
      b0 ≤ (panStep (b0, b1) s ⟨GestureState.END, d⟩).prev ∧
      (panStep (b0, b1) s ⟨GestureState.END, d⟩).prev ≤ b1) ∧
    (∀ (s : AxisState) (f : Frame), f.state ≠ GestureState.END →
      (panStep (b0, b1) s f).prev = s.prev) ∧
    (runFrames (0, 100) ⟨0, 0⟩
      [⟨GestureState.BEGAN, 0⟩, ⟨GestureState.ACTIVE, 50⟩, ⟨GestureState.END, 50⟩,
       ⟨GestureState.BEGAN, 0⟩, ⟨GestureState.ACTIVE, 70⟩,
       ⟨GestureState.END, 70⟩]).prev = 100 := by
  refine ⟨fun s d => ?_, fun s f hf => ?_, ?_⟩
  · have hrw : (panStep (b0, b1) s ⟨GestureState.END, d⟩).prev = cap b0 b1 (s.prev + d) := rfl
    rw [hrw]
    exact ⟨le_min h (le_max_left _ _), min_le_left _ _⟩
  · cases f with
    | mk st d =>
      unfold panStep updateTranslation
      rw [if_neg hf]
  · have hfold : (runFrames (0, 100) ⟨0, 0⟩
        [⟨GestureState.BEGAN, 0⟩, ⟨GestureState.ACTIVE, 50⟩, ⟨GestureState.END, 50⟩,
         ⟨GestureState.BEGAN, 0⟩, ⟨GestureState.ACTIVE, 70⟩,
         ⟨GestureState.END, 70⟩]).prev
        = cap 0 100 (cap 0 100 ((0 : ℝ) + 50) + 70) := rfl
    rw [hfold]
    norm_num [cap, min_def, max_def]

/-- Witness for C2 with boundary [0, 100], committing from previous 20 with an
overshooting delta 130. -/
theorem end_commit_clamped_witness :
    (0 : ℝ) ≤ (panStep (0, 100) ⟨20, 0⟩ ⟨GestureState.END, 130⟩).prev ∧
    (panStep (0, 100) ⟨20, 0⟩ ⟨GestureState.END, 130⟩).prev ≤ 100 :=
  (end_commit_clamped 0 100 (by norm_num)).1 ⟨20, 0⟩ 130

/-- Source (src/src/PanPinch.js):
function getAdjustedBounds(originalValue, zoom, contentWidth, operation) \x7b
    return operation(originalValue, multiply(sub(zoom, 1), divide(contentWidth, 2)));
\x7d -/
def getAdjustedBounds (originalValue zoom contentWidth : ℚ)
    (operation : ℚ → ℚ → ℚ) : ℚ :=
  operation originalValue ((zoom - 1) * (contentWidth / 2))

/-- Source (src/src/PanPinch.js): the effective zoom used for boundary math,
cap(zoomRange[0], zoomRange[1], multiply(previousTransforms.zoom,
currentTransforms.zoom)) — the clamped product of the committed and in-flight
zoom, not the bounced resultingZoom. -/
def cappedEffectiveZoom (zoomRange : ℚ × ℚ) (previousZoom currentZoom : ℚ) : ℚ :=
  cap zoomRange.1 zoomRange.2 (previousZoom * currentZoom)

/-- Source (src/src/PanPinch.js): adjustedXMin = getAdjustedBounds(xRangeMin,
cappedEffectiveZoom, contentWidth, sub).  The node has no gesture-state
conditional, so on every evaluation it is this function of the live zoom
values. -/
def adjustedMinEdge (base : ℚ) (zoomRange : ℚ × ℚ)
    (previousZoom currentZoom extent : ℚ) : ℚ :=
  getAdjustedBounds base (cappedEffectiveZoom zoomRange previousZoom currentZoom)
    extent (· - ·)

/-- Source (src/src/PanPinch.js): adjustedXMax = getAdjustedBounds(xRangeMax,
cappedEffectiveZoom, contentWidth, add); likewise per evaluation. -/
def adjustedMaxEdge (base : ℚ) (zoomRange : ℚ × ℚ)
    (previousZoom currentZoom extent : ℚ) : ℚ :=
  getAdjustedBounds base (cappedEffectiveZoom zoomRange previousZoom currentZoom)
    extent (· + ·)

/-- C6: at every evaluation (as a function of the live previous and current
zoom values, with no latching on the gesture state), the adjusted edge equals
base + (zoom − 1) · (extent / 2) · sign with sign −1 for the min edge and +1
for the max edge, where zoom is the zoomRange-clamped product of the committed
and in-flight zoom — not the bounced zoom. -/
theorem adjustedEdge_formula (base z0 z1 previousZoom currentZoom extent : ℚ) :
    adjustedMinEdge base (z0, z1) previousZoom currentZoom extent =
      base + (cap z0 z1 (previousZoom * currentZoom) - 1) * (extent / 2) * (-1) ∧
    adjustedMaxEdge base (z0, z1) previousZoom currentZoom extent =
      base + (cap z0 z1 (previousZoom * currentZoom) - 1) * (extent / 2) * 1 := by
  constructor
  · simp only [adjustedMinEdge, getAdjustedBounds, cappedEffectiveZoom]
    ring
  · simp only [adjustedMaxEdge, getAdjustedBounds, cappedEffectiveZoom]
    ring

/-- Source (src/src/PanPinch.js render):
xRangeMin = cond(greaterOrEq(containerWidth, contentWidth), 0,
    sub(containerWidth, contentWidth));
xRangeMax = cond(greaterOrEq(containerWidth, contentWidth),
    sub(containerWidth, contentWidth), 0);
and the same for the y axis with the heights. -/
def renderRange (containerExtent contentExtent : ℚ) : ℚ × ℚ :=
  (if containerExtent ≥ contentExtent then 0 else containerExtent - contentExtent,
   if containerExtent ≥ contentExtent then containerExtent - contentExtent else 0)

/-- Source (src/unnamed/part_002 getDerivedStateFromProps):
if (containerWidth > contentWidth) xRange = [0, containerWidth - contentWidth];
else xRange = [contentWidth * -1 + containerWidth, 0];
and the same for the y axis. -/
def derivedRange (containerExtent contentExtent : ℚ) : ℚ × ℚ :=
  if containerExtent > contentExtent then (0, containerExtent - contentExtent)
  else (contentExtent * (-1) + containerExtent, 0)

/-- C7: in both revisions the base pan boundary is [0, C − K] when the
container extent C is at least the content extent K, and [C − K, 0] otherwise
(at C = K the two branch conditions differ but both produce [0, 0]), with the
spec examples evaluated. -/
theorem base_range_derivation (c k : ℚ) :
    (c ≥ k → renderRange c k = (0, c - k) ∧ derivedRange c k = (0, c - k)) ∧
    (c < k → renderRange c k = (c - k, 0) ∧ derivedRange c k = (c - k, 0)) ∧
    renderRange 100 20 = (0, 80) ∧ renderRange 20 100 = (-80, 0) ∧
    derivedRange 100 20 = (0, 80) ∧ derivedRange 20 100 = (-80, 0) := by
  refine ⟨fun hge => ⟨?_, ?_⟩, fun hlt => ⟨?_, ?_⟩, ?_, ?_, ?_, ?_⟩
  · simp [renderRange, hge]
  · by_cases hgt : c > k
    · simp [derivedRange, hgt]
    · have hek : c = k := le_antisymm (not_lt.mp hgt) hge
      subst hek
      norm_num [derivedRange]
  · have hc : ¬ (c ≥ k) := not_le.mpr hlt
    simp [renderRange, hc]
  · have hc : ¬ (c > k) := by linarith
    simp only [derivedRange, if_neg hc, Prod.mk.injEq]
    exact ⟨by ring, trivial⟩
  · norm_num [renderRange]
  · norm_num [renderRange]
  · norm_num [derivedRange]
  · norm_num [derivedRange]

/-- Witness for C7 at container 100, content 20. -/
theorem base_range_derivation_witness :
    renderRange 100 20 = (0, 100 - 20) ∧ derivedRange 100 20 = (0, 100 - 20) :=
  (base_range_derivation 100 20).1 (by norm_num)

/-- Props that may be passed to the component; none models an absent prop
(arrays, including malformed ones, are always truthy in JS). -/
structure PanPinchProps where
  containerDimensions : Option (List ℚ)
  contentDimensions : Option (List ℚ)
  zoomRange : Option (List ℚ)

/-- The partial state object getDerivedStateFromProps returns: a none field
means the key is absent from newState, so React keeps the prior state for it;
diagnostics collects the console.log rejection messages in order. -/
structure DerivedState where
  containerDimensions : Option (List ℚ)
  contentDimensions : Option (List ℚ)
  zoomRange : Option (List ℚ)
  diagnostics : List String
deriving DecidableEq, Repr

/-- Source (src/src/PanPinch.js getDerivedStateFromProps).  Each present prop
is accepted into newState only if it passes its array-shape check, otherwise a
diagnostic is logged and the key is left out.  The zoomRange branch is
modelled exactly as written in the source: its length check reads
props.contentDimensions.length (not props.zoomRange.length), so when zoomRange
is present and contentDimensions is absent the member access throws a
TypeError, modelled as Except.error. -/
def getDerivedStateFromProps (props : PanPinchProps) : Except String DerivedState :=
  let containerResult : Option (List ℚ) × List String :=
    match props.containerDimensions with
    | none => (none, [])
    | some l =>
      if l.length = 2 then (some l, [])
      else (none, ["PanPinch: Invalid containerDimensions"])
  let contentResult : Option (List ℚ) × List String :=
    match props.contentDimensions with
    | none => (none, [])
    | some l =>
      if l.length = 2 then (some l, [])
      else (none, ["PanPinch: Invalid contentDimensions"])
  match props.zoomRange with
  | none =>
    Except.ok ⟨containerResult.1, contentResult.1, none,
      containerResult.2 ++ contentResult.2⟩
  | some zr =>
    match props.contentDimensions with
    | none => Except.error "TypeError: cannot read property length of undefined"
    | some cd =>
      if cd.length = 2 then
        Except.ok ⟨containerResult.1, contentResult.1, some zr,
          containerResult.2 ++ contentResult.2⟩
      else
        Except.ok ⟨containerResult.1, contentResult.1, none,
          containerResult.2 ++ contentResult.2 ++ ["PanPinch: Invalid zoomRange"]⟩

/-- C8 evidence: a 3-element zoomRange is accepted without any diagnostic when
contentDimensions happens to have length 2 (the check reads the length of the
wrong prop), and a well-formed zoomRange with contentDimensions absent crashes
with a TypeError; meanwhile the containerDimensions checks behave as the claim
describes (valid accepted, wrong length rejected with a diagnostic and the key
left out so prior state is kept). -/
theorem getDerivedStateFromProps_zoomRange_bug :
    getDerivedStateFromProps ⟨none, some [10, 10], some [1, 2, 3]⟩ =
      Except.ok ⟨none, some [10, 10], some [1, 2, 3], []⟩ ∧
    getDerivedStateFromProps ⟨none, none, some [1, 2]⟩ =
      Except.error "TypeError: cannot read property length of undefined" ∧
    getDerivedStateFromProps ⟨some [30, 40], none, none⟩ =
      Except.ok ⟨some [30, 40], none, none, []⟩ ∧
    getDerivedStateFromProps ⟨some [30], none, none⟩ =
      Except.ok ⟨none, none, none, ["PanPinch: Invalid containerDimensions"]⟩ :=
  ⟨rfl, rfl, rfl, rfl⟩

/-- C9: cap returns the value when it lies in [min, max], the nearer bound when
it exceeds either bound, and when min > max it still returns one of the two
bounds (namely max) without failing. -/
theorem cap_spec (minValue maxValue value : ℚ) :
    (minValue ≤ maxValue →
      ((minValue ≤ value → value ≤ maxValue → cap minValue maxValue value = value) ∧
       (maxValue < value → cap minValue maxValue value = maxValue) ∧
       (value < minValue → cap minValue maxValue value = minValue))) ∧
    (maxValue < minValue →
      cap minValue maxValue value = minValue ∨ cap minValue maxValue value = maxValue) := by
  constructor
  · intro hmm
    refine ⟨fun h1 h2 => ?_, fun h => ?_, fun h => ?_⟩
    · simp [cap, max_eq_right h1, min_eq_right h2]
    · have hmx : max minValue value = value := max_eq_right (by linarith)
      simp [cap, hmx, min_eq_left (le_of_lt h)]
    · have hmx : max minValue value = minValue := max_eq_left (by linarith)
      simp [cap, hmx, min_eq_right hmm]
  · intro hlt
    right
    have hmx : maxValue ≤ max minValue value := le_trans (le_of_lt hlt) (le_max_left _ _)
    simp [cap, min_eq_left hmx]

/-- Witness for C9 at concrete inputs. -/
theorem cap_spec_witness :
    cap (0 : ℚ) 10 5 = 5 ∧ cap (0 : ℚ) 10 12 = 10 ∧ cap (0 : ℚ) 10 (-3) = 0 ∧
    (cap (7 : ℚ) 2 5 = 7 ∨ cap (7 : ℚ) 2 5 = 2) := by
  refine ⟨?_, ?_, ?_, ?_⟩
  · exact ((cap_spec 0 10 5).1 (by norm_num)).1 (by norm_num) (by norm_num)
  · exact ((cap_spec 0 10 12).1 (by norm_num)).2.1 (by norm_num)
  · exact ((cap_spec 0 10 (-3)).1 (by norm_num)).2.2 (by norm_num)
  · exact (cap_spec 7 2 5).2 (by norm_num)
